import Mathlib

/-!
Shallow embedding of the client-side core of the services-marketplace
storefront: the route guard (frontend/src/components/ProtectedRoute.js),
the order-intent gate on the listing detail view
(frontend/src/pages/ServiceDetail.js), the marketplace catalog fetch
(Marketplace in frontend/src/pages/Dashboard.js) and the listing-creation
pipeline (frontend/src/pages/CreateService.js).  Parsed numbers are
modelled as exact decimals (integer mantissa over a power of ten) and
Int, with an Option layer for the JavaScript NaN value; asynchronous
completions are modelled by explicit event lists.
-/

/-- Account role, the user_type field of the authenticated user object. -/
inductive UserType where
  | buyer
  | creator
  deriving DecidableEq, Repr

/-- The authenticated identity as read from the auth context. -/
structure User where
  id : String
  user_type : UserType
  deriving DecidableEq, Repr

/-- A published service listing as rendered by ServiceDetail. -/
structure Service where
  id : String
  creator_id : String
  title : String
  description : String
  category : String
  tags : List String
  base_price : Rat
  delivery_time_days : Int
  revisions_included : Int
  images : List String
  is_active : Bool
  deriving DecidableEq, Repr

/-- The four mutually exclusive sidebar affordances of ServiceDetail. -/
inductive Affordance where
  | orderForm
  | ownService
  | creatorsCannotOrder
  | signIn
  deriving DecidableEq, Repr

/-- Embedding of the conditional chain at ServiceDetail.js lines 195 to 248:
buyer and not owner shows the order form; otherwise an owner sees the
own-service panel; otherwise a creator sees the creators-cannot-order
notice; otherwise the sign-in prompt is shown. -/
def orderAffordance (user : Option User) (service : Service) : Affordance :=
  match user with
  | some u =>
      if u.user_type = UserType.buyer ∧ u.id ≠ service.creator_id then
        Affordance.orderForm
      else if u.id = service.creator_id then
        Affordance.ownService
      else if u.user_type = UserType.creator then
        Affordance.creatorsCannotOrder
      else
        Affordance.signIn
  | none => Affordance.signIn

/-- Outcome of one route-guard evaluation. -/
inductive GuardDecision where
  | pending
  | redirectLogin
  | redirectDashboard
  | allow
  deriving DecidableEq, Repr

/-- Embedding of ProtectedRoute.js: spinner while loading, redirect to
login when no user, redirect to the dashboard when a required user type is
declared and mismatches, otherwise render the children. -/
def protectedRoute (loading : Bool) (user : Option User)
    (requiredUserType : Option UserType) : GuardDecision :=
  if loading then GuardDecision.pending
  else
    match user with
    | none => GuardDecision.redirectLogin
    | some u =>
        match requiredUserType with
        | some r =>
            if u.user_type ≠ r then GuardDecision.redirectDashboard
            else GuardDecision.allow
        | none => GuardDecision.allow

/-- Modelled from the spec: the RouteGuard decision table of section 4.2,
read together with the C2 claim rows.  While loading the guard suspends
with a pending indicator; with no identity it redirects to login; with an
identity and a mismatching specific-role requirement it redirects to the
default authenticated landing view; otherwise it allows. -/
def routeGuardSpec (loading : Bool) (user : Option User)
    (required : Option UserType) : GuardDecision :=
  if loading then GuardDecision.pending
  else
    match user, required with
    | none, _ => GuardDecision.redirectLogin
    | some u, some r =>
        if u.user_type = r then GuardDecision.allow
        else GuardDecision.redirectDashboard
    | some _, none => GuardDecision.allow

/-- Displayed state owned by the Marketplace component: the services list
and the loading flag. -/
structure MarketState where
  services : List String
  loading : Bool
  deriving DecidableEq, Repr

/-- Scheduler-visible events of Marketplace.fetchServices: a request is
issued (setLoading true, the request goes out) and later some request
resolves with its payload (setServices data, setLoading false).  The
request id records which issued request a resolution belongs to; the
handler itself never inspects it, which is exactly the absent staleness
guard in the source. -/
inductive FetchEvent where
  | issue (id : Nat)
  | resolve (id : Nat) (data : List String)
  deriving DecidableEq, Repr

/-- One state update of Marketplace.fetchServices as written in
Dashboard.js lines 382 to 399. -/
def marketStep (st : MarketState) (e : FetchEvent) : MarketState :=
  match e with
  | FetchEvent.issue _ => { st with loading := true }
  | FetchEvent.resolve _ data => { services := data, loading := false }

/-- Run of the Marketplace state machine over an event list. -/
def runMarket (st : MarketState) (es : List FetchEvent) : MarketState :=
  es.foldl marketStep st

/-- A file handed to the image-upload handler: its byte size and the
base64 payload its FileReader read would produce (the data-URL prefix
already stripped, as done in the onload callback). -/
structure JsFile where
  size : Nat
  payload : String
  deriving DecidableEq, Repr

/-- The 5 MiB attachment limit of handleImageUpload. -/
def sizeLimit : Nat := 5 * 1024 * 1024

/-- Payloads of the files accepted by handleImageUpload, in selection
order: a file is skipped exactly when its size exceeds the limit, and a
FileReader is started for every other file. -/
def acceptedPayloads (files : List JsFile) : List String :=
  (files.filter (fun f => decide (f.size ≤ sizeLimit))).map JsFile.payload

/-- The error update performed for one file inside the forEach of
handleImageUpload: an oversized file sets the size error, any other file
leaves the error as it was. -/
def uploadStep (err : String) (f : JsFile) : String :=
  if sizeLimit < f.size then "Image files must be less than 5MB" else err

/-- The error string after handleImageUpload has walked the whole batch. -/
def handleImageUploadError (prevError : String) (files : List JsFile) : String :=
  files.foldl uploadStep prevError

/-- The images state after every started FileReader has fired its onload
callback.  Each callback appends one payload (setImages prev to prev
concatenated with the payload), so the final list is the previous images
followed by the accepted payloads in the order the reads completed; the
arrival argument is that completion order. -/
def finalImages (images : List String) (arrival : List String) : List String :=
  images ++ arrival

/-- The form state of CreateService: every field is the raw input string. -/
structure FormData where
  title : String
  description : String
  category : String
  tags : String
  base_price : String
  delivery_time_days : String
  revisions_included : String
  deriving DecidableEq, Repr

/-- Digits of a decimal numeral folded into a Nat. -/
def digitsToNat (ds : List Char) : Nat :=
  ds.foldl (fun acc c => acc * 10 + (c.toNat - 48)) 0

/-- Whitespace skipped by the JavaScript numeric parsers. -/
def isJsSpace (c : Char) : Bool :=
  c == ' ' || c == '\t' || c == '\n' || c == '\r'

/-- Model of the JavaScript string trim method: leading and trailing
whitespace removed. -/
def jsTrim (s : String) : String :=
  String.mk (((s.data.dropWhile isJsSpace).reverse.dropWhile isJsSpace).reverse)

/-- Helper for jsSplitComma: walks the characters, cutting at every
comma; acc holds the current segment reversed. -/
def jsSplitCommaAux : List Char → List Char → List String
  | [], acc => [String.mk acc.reverse]
  | c :: rest, acc =>
      if c == ',' then String.mk acc.reverse :: jsSplitCommaAux rest []
      else jsSplitCommaAux rest (c :: acc)

/-- Model of the JavaScript split method with a comma separator: the
string is cut at every comma, and the empty string splits to a single
empty segment. -/
def jsSplitComma (s : String) : List String :=
  jsSplitCommaAux s.data []

/-- An exact decimal number: the value is mant divided by ten to the
scale.  With trailing fraction zeros stripped the representation of a
terminating decimal is unique, so structural equality is numeric
equality on every value parseFloat produces here. -/
structure JsNumber where
  mant : Int
  scale : Nat
  deriving DecidableEq, Repr

/-- Ten to a natural power, as an Int, by structural recursion so that it
evaluates inside the kernel. -/
def pow10 : Nat → Int
  | 0 => 1
  | n + 1 => 10 * pow10 n

/-- Model of the JavaScript parseFloat builtin on the plain decimal
literals this form produces: optional leading whitespace, optional sign,
an integer part and an optional fraction part, parsed as a longest
prefix; trailing fraction zeros carry no value and are stripped.  The
result none stands for NaN, returned exactly when no digit is read. -/
def jsParseFloat (s : String) : Option JsNumber :=
  let cs := s.data.dropWhile isJsSpace
  let signed : Int × List Char :=
    match cs with
    | '-' :: rest => (-1, rest)
    | '+' :: rest => (1, rest)
    | _ => (1, cs)
  let intPart := signed.2.takeWhile Char.isDigit
  let rest1 := signed.2.dropWhile Char.isDigit
  let fracRaw :=
    match rest1 with
    | '.' :: r => r.takeWhile Char.isDigit
    | _ => []
  if intPart.isEmpty && fracRaw.isEmpty then none
  else
    let frac := (fracRaw.reverse.dropWhile (fun c => c == '0')).reverse
    some { mant := signed.1 * (digitsToNat (intPart ++ frac) : Int),
           scale := frac.length }

/-- Model of the JavaScript parseInt builtin with the default radix on
decimal input: optional leading whitespace, optional sign, a longest
digit prefix.  The result none stands for NaN, returned exactly when no
digit is read. -/
def jsParseInt (s : String) : Option Int :=
  let cs := s.data.dropWhile isJsSpace
  let signed : Int × List Char :=
    match cs with
    | '-' :: rest => (-1, rest)
    | '+' :: rest => (1, rest)
    | _ => (1, cs)
  let ds := signed.2.takeWhile Char.isDigit
  if ds.isEmpty then none
  else some (signed.1 * (digitsToNat ds : Int))

/-- The comparison parseFloat x lessOrEqual c as JavaScript evaluates it:
every comparison against NaN is false, and a decimal is at most the
integer c exactly when its mantissa is at most c scaled up. -/
def jsLeFloat (x : Option JsNumber) (c : Int) : Bool :=
  match x with
  | none => false
  | some q => decide (q.mant ≤ c * pow10 q.scale)

/-- The comparison parseInt x lessOrEqual 0 as JavaScript evaluates it:
every comparison against NaN is false. -/
def jsLeInt (x : Option Int) (c : Int) : Bool :=
  match x with
  | none => false
  | some n => decide (n ≤ c)

/-- Embedding of the validation block of handleSubmit in CreateService.js
lines 73 to 96: four early-return checks in order, each producing a single
error string.  The price and delivery conditions are the literal
falsy-or-comparison tests of the source. -/
def validateService (fd : FormData) : Option String :=
  if jsTrim fd.title = "" then some "Title is required"
  else if jsTrim fd.description = "" then some "Description is required"
  else if fd.base_price = "" ∨ jsLeFloat (jsParseFloat fd.base_price) 0 = true then
    some "Please enter a valid price"
  else if fd.delivery_time_days = "" ∨ jsLeInt (jsParseInt fd.delivery_time_days) 0 = true then
    some "Please enter a valid delivery time"
  else none

/-- The request body built by handleSubmit once validation has passed. -/
structure ServiceData where
  title : String
  description : String
  category : String
  tags : List String
  base_price : Option JsNumber
  delivery_time_days : Option Int
  revisions_included : Option Int
  images : List String
  deriving DecidableEq, Repr

/-- Embedding of the serviceData construction in CreateService.js lines 99
to 106: numeric coercion of price, delivery and revisions, and the tags
split on commas, trimmed, with empty segments discarded. -/
def buildServiceData (fd : FormData) (images : List String) : ServiceData :=
  { title := fd.title
    description := fd.description
    category := fd.category
    tags := ((jsSplitComma fd.tags).map jsTrim).filter (fun t => decide (t ≠ ""))
    base_price := jsParseFloat fd.base_price
    delivery_time_days := jsParseInt fd.delivery_time_days
    revisions_included := jsParseInt fd.revisions_included
    images := images }

/-- Outcome of the POST to the services endpoint: a created id, or a
failure that may carry a backend detail message. -/
inductive SubmitResult where
  | success (id : String)
  | failure (detail : Option String)
  deriving DecidableEq, Repr

/-- The component state handleSubmit reads and writes. -/
structure CreatePageState where
  formData : FormData
  images : List String
  error : String
  loading : Bool
  deriving DecidableEq, Repr

/-- Embedding of handleSubmit in CreateService.js lines 68 to 117: clear
the error, set loading, run the validation chain, and when it passes send
the request; the second component is the navigation target on success.
On failure the error becomes the backend detail when present, else the
generic fallback, and the form data and images are left untouched. -/
def handleSubmit (st : CreatePageState) (backend : SubmitResult) :
    CreatePageState × Option String :=
  let st1 : CreatePageState := { st with error := "", loading := true }
  match validateService st1.formData with
  | some msg => ({ st1 with error := msg, loading := false }, none)
  | none =>
      match backend with
      | SubmitResult.success newId =>
          ({ st1 with loading := false }, some ("/service/" ++ newId))
      | SubmitResult.failure detail =>
          ({ st1 with
              error := detail.getD "Failed to create service",
              loading := false }, none)

/-- Fixture: a creator identity that owns the fixture service. -/
def userCreatorOwner : User := { id := "c1", user_type := UserType.creator }

/-- Fixture: a service owned by account c1. -/
def svcOwn : Service :=
  { id := "s1", creator_id := "c1", title := "Logo Design",
    description := "I design logos", category := "graphic-design",
    tags := ["logo"], base_price := 25, delivery_time_days := 3,
    revisions_included := 1, images := [], is_active := true }

/-- Fixture: a form whose title and description are both blank. -/
def fdTwoInvalid : FormData :=
  { title := "", description := "", category := "graphic-design",
    tags := "", base_price := "25.00", delivery_time_days := "3",
    revisions_included := "1" }

/-- Fixture: a form whose price input is not numeric. -/
def fdBadPrice : FormData :=
  { title := "Logo Design", description := "I design logos",
    category := "graphic-design", tags := "", base_price := "abc",
    delivery_time_days := "3", revisions_included := "1" }

/-- Fixture: a form whose delivery input is not numeric. -/
def fdBadDelivery : FormData :=
  { title := "Logo Design", description := "I design logos",
    category := "graphic-design", tags := "", base_price := "25.00",
    delivery_time_days := "xyz", revisions_included := "1" }

/-- Fixture: the round-trip form of the spec. -/
def fdGood : FormData :=
  { title := "Logo Design", description := "I design logos",
    category := "graphic-design", tags := "logo, branding",
    base_price := "25.00", delivery_time_days := "3",
    revisions_included := "1" }

/-- Fixture: a page state holding the round-trip form and one image. -/
def stGood : CreatePageState :=
  { formData := fdGood, images := ["img1"], error := "", loading := false }

/-- Fixture: a two-file batch, both under the size limit. -/
def filesTwo : List JsFile :=
  [{ size := 100, payload := "p1" }, { size := 200, payload := "p2" }]

/-- Fixture: a creator identity that does not own the fixture service. -/
def userCreatorOther : User := { id := "c2", user_type := UserType.creator }

/-- Claim C1, counterexample: a signed-in creator whose id equals the
listing owner id is shown the own-service affordance, not the
creators-cannot-order notice, so the gate is not independent of
ownership for creators. -/
theorem orderGate_creator_owner_counterexample :
    userCreatorOwner.user_type = UserType.creator ∧
    userCreatorOwner.id = svcOwn.creator_id ∧
    orderAffordance (some userCreatorOwner) svcOwn = Affordance.ownService ∧
    Affordance.ownService ≠ Affordance.creatorsCannotOrder := by
  decide

/-- Claim C1, amended: a signed-in creator sees the own-service affordance
when owning the listing and the creators-cannot-order notice otherwise;
in either case the order form is never shown to a creator. -/
theorem orderGate_creator_never_order_form :
    ∀ (u : User) (s : Service), u.user_type = UserType.creator →
      orderAffordance (some u) s =
        (if u.id = s.creator_id then Affordance.ownService
         else Affordance.creatorsCannotOrder) ∧
      orderAffordance (some u) s ≠ Affordance.orderForm := by
  intro u s hu
  by_cases hid : u.id = s.creator_id <;>
    simp [orderAffordance, hu, hid]

/-- Witness for orderGate_creator_never_order_form at a creator viewing a
listing owned by another account. -/
theorem orderGate_creator_never_order_form_witness :
    orderAffordance (some userCreatorOther) svcOwn =
      (if userCreatorOther.id = svcOwn.creator_id then Affordance.ownService
       else Affordance.creatorsCannotOrder) ∧
    orderAffordance (some userCreatorOther) svcOwn ≠ Affordance.orderForm :=
  orderGate_creator_never_order_form userCreatorOther svcOwn rfl

/-- Claim C2: for every session state the route-guard decision of the code
equals the decision table of the spec: pending while loading, redirect to
login when no identity is set, redirect to the dashboard on a mismatching
specific-role requirement, allow otherwise. -/
theorem protectedRoute_matches_spec_table :
    ∀ (l : Bool) (u : Option User) (r : Option UserType),
      protectedRoute l u r = routeGuardSpec l u r := by
  intro l u r
  cases l <;> cases u <;> cases r <;>
    simp [protectedRoute, routeGuardSpec, ite_not]

/-- Claim C10: for every required-role parameter, including the default
none, the guard redirects an unauthenticated session to login once
loading is false, and no evaluation of the guard ever allows a session
with no identity. -/
theorem protectedRoute_requires_auth :
    (∀ r : Option UserType,
        protectedRoute false none r = GuardDecision.redirectLogin) ∧
    (∀ (l : Bool) (r : Option UserType),
        protectedRoute l none r ≠ GuardDecision.allow) := by
  refine ⟨fun _ => rfl, ?_⟩
  intro l r
  cases l <;> simp [protectedRoute]

/-- Claim C3, counterexample: two requests are issued in order, the newer
one resolves first, and the older one resolves afterwards; the handler
applies every resolution unconditionally, so the displayed services end as
the older request payload, overwriting the newer result. -/
theorem fetchServices_stale_overwrite_counterexample :
    (runMarket { services := [], loading := false }
        [FetchEvent.issue 0, FetchEvent.issue 1,
         FetchEvent.resolve 1 ["result-for-ab"],
         FetchEvent.resolve 0 ["result-for-a"]]).services = ["result-for-a"] ∧
    (["result-for-a"] : List String) ≠ ["result-for-ab"] :=
  ⟨rfl, by decide⟩

/-- Claim C3, amended: the fetch handler has no staleness guard, so the
payload of whichever request resolves last is the one displayed,
regardless of the order in which the requests were issued. -/
theorem fetchServices_last_response_wins :
    ∀ (st : MarketState) (es : List FetchEvent) (id : Nat) (data : List String),
      (runMarket st (es ++ [FetchEvent.resolve id data])).services = data := by
  intro st es id data
  simp [runMarket, List.foldl_append, marketStep]

/-- Claim C4, counterexample: a draft with an empty title and an empty
description surfaces only the title error as a single string; the
description error is not reported together with it and no per-field map
exists. -/
theorem validate_short_circuit_counterexample :
    jsTrim fdTwoInvalid.title = "" ∧
    jsTrim fdTwoInvalid.description = "" ∧
    validateService fdTwoInvalid = some "Title is required" ∧
    validateService fdTwoInvalid ≠ some "Description is required" := by
  decide

/-- Claim C4, amended: validation short-circuits at the first failing
check in the order title, description, price, delivery, and surfaces only
that single error string: a blank title always yields the title error
alone, and the description error appears only when the title check
passes. -/
theorem validate_first_error_only :
    ∀ (fd : FormData),
      (jsTrim fd.title = "" → validateService fd = some "Title is required") ∧
      (jsTrim fd.title ≠ "" → jsTrim fd.description = "" →
        validateService fd = some "Description is required") := by
  intro fd
  constructor
  · intro h
    simp [validateService, h]
  · intro h1 h2
    simp [validateService, h1, h2]

/-- Witness for validate_first_error_only at the doubly invalid form. -/
theorem validate_first_error_only_witness :
    jsTrim fdTwoInvalid.title = "" ∧
    validateService fdTwoInvalid = some "Title is required" :=
  ⟨by decide, (validate_first_error_only fdTwoInvalid).1 (by decide)⟩

/-- Claim C5, code evaluation at the failing inputs: a non-numeric price
or delivery string parses to NaN, every comparison against NaN is false,
so the falsy-or-comparison guard does not fire and validation passes the
draft through to submission instead of rejecting it. -/
theorem validate_accepts_non_numeric_input :
    jsParseFloat "abc" = none ∧
    jsParseInt "xyz" = none ∧
    validateService fdBadPrice = none ∧
    validateService fdBadDelivery = none := by
  decide

/-- Claim C8: the round-trip draft passes validation and the request body
built from it carries price 25, delivery 3, revisions 1 and the tag list
obtained by splitting on commas, trimming and dropping empty segments. -/
theorem listing_draft_round_trip :
    validateService fdGood = none ∧
    (buildServiceData fdGood ["img1"]).base_price = some { mant := 25, scale := 0 } ∧
    (buildServiceData fdGood ["img1"]).delivery_time_days = some 3 ∧
    (buildServiceData fdGood ["img1"]).revisions_included = some 1 ∧
    (buildServiceData fdGood ["img1"]).tags = ["logo", "branding"] := by
  decide

/-- Claim C9: when the backend rejects a validated submission, the form
data and the image list are left exactly as they were, no navigation
happens, and the surfaced error is the backend detail when present, else
the generic fallback message. -/
theorem submit_failure_retains_draft :
    ∀ (st : CreatePageState) (detail : Option String),
      validateService st.formData = none →
      (handleSubmit st (SubmitResult.failure detail)).1.formData = st.formData ∧
      (handleSubmit st (SubmitResult.failure detail)).1.images = st.images ∧
      (handleSubmit st (SubmitResult.failure detail)).1.error
          = detail.getD "Failed to create service" ∧
      (handleSubmit st (SubmitResult.failure detail)).2 = none := by
  intro st detail h
  simp [handleSubmit, h]

/-- Witness for submit_failure_retains_draft at the round-trip page state
and a backend-provided detail message. -/
theorem submit_failure_retains_draft_witness :
    validateService stGood.formData = none ∧
    ((handleSubmit stGood (SubmitResult.failure (some "Price too low"))).1.formData
        = stGood.formData ∧
      (handleSubmit stGood (SubmitResult.failure (some "Price too low"))).1.images
        = stGood.images ∧
      (handleSubmit stGood (SubmitResult.failure (some "Price too low"))).1.error
        = (some "Price too low").getD "Failed to create service" ∧
      (handleSubmit stGood (SubmitResult.failure (some "Price too low"))).2 = none) :=
  ⟨by decide,
    submit_failure_retains_draft stGood (some "Price too low") (by decide)⟩

/-- Claim C6, counterexample: two accepted files whose reads complete in
reverse order are appended in that completion order, so the final image
list differs from the selection order the claim requires. -/
theorem imageUpload_completion_order_counterexample :
    List.Perm ["p2", "p1"] (acceptedPayloads filesTwo) ∧
    finalImages [] ["p2", "p1"] ≠ acceptedPayloads filesTwo := by
  decide

/-- Claim C6, amended: each accepted file contributes its payload exactly
once, but the appends happen in the completion order of the asynchronous
reads; the final list is the previous images followed by the arrivals, a
permutation of the accepted payloads in selection order. -/
theorem imageUpload_append_perm :
    ∀ (images : List String) (files : List JsFile) (arrival : List String),
      List.Perm arrival (acceptedPayloads files) →
      finalImages images arrival = images ++ arrival ∧
      List.Perm (finalImages images arrival) (images ++ acceptedPayloads files) := by
  intro images files arrival h
  exact ⟨rfl, List.Perm.append_left images h⟩

/-- Witness for imageUpload_append_perm at the two-file batch with the
reads completing in reverse order. -/
theorem imageUpload_append_perm_witness :
    List.Perm ["p2", "p1"] (acceptedPayloads filesTwo) ∧
    (finalImages [] ["p2", "p1"] = [] ++ ["p2", "p1"] ∧
      List.Perm (finalImages [] ["p2", "p1"]) ([] ++ acceptedPayloads filesTwo)) :=
  ⟨by decide, imageUpload_append_perm [] filesTwo ["p2", "p1"] (by decide)⟩

/-- Helper: once the size error message is the accumulator, walking any
further files leaves it unchanged, because each step either keeps the
accumulator or writes the same message again. -/
theorem uploadStep_absorb :
    ∀ (l : List JsFile),
      l.foldl uploadStep "Image files must be less than 5MB"
        = "Image files must be less than 5MB" := by
  intro l
  induction l with
  | nil => rfl
  | cons a t ih => simpa [uploadStep, List.foldl_cons, ite_self] using ih

/-- Claim C7: in any batch containing a file at the size limit and a file
above it, the in-limit file is accepted and its payload appears at its
selection position, the oversized file is skipped and contributes nothing,
the size error is surfaced, and the files before and after them are
processed exactly as they would be on their own. -/
theorem imageUpload_size_boundary :
    ∀ (pre post : List JsFile) (f g : JsFile) (e : String),
      f.size ≤ sizeLimit → sizeLimit < g.size →
      acceptedPayloads (pre ++ f :: g :: post)
          = acceptedPayloads pre ++ f.payload :: acceptedPayloads post ∧
      handleImageUploadError e (pre ++ f :: g :: post)
          = "Image files must be less than 5MB" := by
  intro pre post f g e hf hg
  constructor
  · simp [acceptedPayloads, List.filter_append, List.filter_cons, hf,
      Nat.not_le.mpr hg]
  · have hstep : ∀ x, uploadStep x g = "Image files must be less than 5MB" := by
      intro x
      simp [uploadStep, hg]
    simp [handleImageUploadError, List.foldl_append, List.foldl_cons, hstep]
    exact uploadStep_absorb post

/-- Witness for imageUpload_size_boundary at a file of exactly 5 MiB and
a file of 5 MiB plus one byte. -/
theorem imageUpload_size_boundary_witness :
    ((5242880 : Nat) ≤ sizeLimit ∧ sizeLimit < 5242881) ∧
    (acceptedPayloads
        ([] ++ { size := 5242880, payload := "exact5MiB" }
            :: { size := 5242881, payload := "over5MiB" } :: [])
        = acceptedPayloads [] ++ "exact5MiB" :: acceptedPayloads [] ∧
      handleImageUploadError ""
        ([] ++ { size := 5242880, payload := "exact5MiB" }
            :: { size := 5242881, payload := "over5MiB" } :: [])
        = "Image files must be less than 5MB") :=
  ⟨⟨by decide, by decide⟩,
    imageUpload_size_boundary [] [] { size := 5242880, payload := "exact5MiB" }
      { size := 5242881, payload := "over5MiB" } "" (by decide) (by decide)⟩
